import Mathlib

set_option maxHeartbeats 1000000

/-!
Shallow embedding of `src/models/rangevit.py` (repository thanhtw/Utrans).

Python dictionaries are modelled as association lists with unique keys
(`PyDict`), configuration values as the inductive `Val`, and Python
exceptions as `Except PyError`.  Sub-modules whose defining source files are
not under `src/` (`ConvStem`, `DecoderUpConv`, `KPClassifier`,
`RangeViT_KPConv`) are modelled from the spec, as recorded in their doc
comments.  Tensor contents are abstract: state dictionaries carry values of
an arbitrary type, and the forward pass is modelled over an abstract tensor
type.
-/

/-- Python exceptions raised on the code paths of `rangevit.py`:
`KeyError` (dict subscript / `pop` / `del` on a missing key),
`TypeError` (bad argument kinds, unpacking a non-pair),
`NameError` (line 204 `raise NameError(...)`, and use of the unbound
`decoder_cfg` when `decoder` is not `up_conv`),
`ValueError` (line 148 `raise ValueError(...)`), and
`AssertionError` (line 53 `assert patch_stride == patch_size`). -/
inductive PyError where
  | keyError : String → PyError
  | typeError : String → PyError
  | nameError : String → PyError
  | valueError : String → PyError
  | assertionError : PyError
deriving DecidableEq

/-- The decoder configuration dictionary built at lines 207-212; it has the
fixed keys `n_cls`, `name`, `d_decoder`, `scale_factor`, `skip_filters`, so
it is modelled as a record. -/
structure UpConvDecoderCfg where
  n_cls : Nat
  name : String
  d_decoder : Nat
  scale_factor : Nat × Nat
  skip_filters : Nat
deriving DecidableEq

/-- Python values appearing in the configuration dictionaries of
`rangevit.py`: ints, floats (modelled as rationals), strings, 2-tuples of
ints, `None`, and the nested decoder-configuration dict. -/
inductive Val where
  | nat : Nat → Val
  | rat : Rat → Val
  | str : String → Val
  | pair : Nat → Nat → Val
  | pynone : Val
  | dec : UpConvDecoderCfg → Val
deriving DecidableEq

/-- A Python dict, modelled as an association list whose keys are unique
(Python dicts cannot hold a key twice). -/
abbrev PyDict (α : Type) := List (String × α)

/-- A configuration dictionary of `rangevit.py`. -/
abbrev Cfg := PyDict Val

/-- Python `list(d.keys())`. -/
def PyDict.keys {α : Type} (d : PyDict α) : List String :=
  d.map Prod.fst

/-- Removal of a key from a dict (all entries with that key; a dict with
unique keys has at most one). -/
def PyDict.erase {α : Type} (d : PyDict α) (k : String) : PyDict α :=
  d.filter (fun p => p.1 != k)

/-- Python `d.pop(k)`: returns the value at `k` and the dict without `k`;
raises `KeyError` when `k` is absent. -/
def PyDict.pop {α : Type} (d : PyDict α) (k : String) : Except PyError (α × PyDict α) :=
  match List.lookup k d with
  | Option.some v => Except.ok (v, PyDict.erase d k)
  | Option.none => Except.error (PyError.keyError k)

/-- Python `d[k]` (subscript read): raises `KeyError` when `k` is absent. -/
def PyDict.getItem {α : Type} (d : PyDict α) (k : String) : Except PyError α :=
  match List.lookup k d with
  | Option.some v => Except.ok v
  | Option.none => Except.error (PyError.keyError k)

/-- Python `d[k] = v` (subscript write): updates the first binding of `k` in
place, appends a new binding when `k` is absent — Python dict insertion
order semantics. -/
def PyDict.set {α : Type} : PyDict α → String → α → PyDict α
  | [], k, v => [(k, v)]
  | p :: rest, k, v => if p.1 = k then (k, v) :: rest else p :: PyDict.set rest k v

/-- Python `del d[k]`: raises `KeyError` when `k` is absent. -/
def PyDict.del {α : Type} (d : PyDict α) (k : String) : Except PyError (PyDict α) :=
  if k ∈ PyDict.keys d then Except.ok (PyDict.erase d k) else Except.error (PyError.keyError k)

/-- Does `needle` occur at the head of `hay`? (helper for substring
containment). -/
def leadMatch : List Char → List Char → Bool
  | [], _ => true
  | _ :: _, [] => false
  | a :: as, b :: bs => (a == b) && leadMatch as bs

/-- Does `needle` occur contiguously anywhere in `hay`? -/
def containsRun (needle : List Char) : List Char → Bool
  | [] => leadMatch needle []
  | c :: rest => leadMatch needle (c :: rest) || containsRun needle rest

/-- Python `sub in s` on strings: contiguous substring containment. -/
def strIn (sub s : String) : Bool :=
  containsRun sub.data s.data

/-- Required-keyword read for a `**cfg` call: a missing required parameter
is a `TypeError` in Python. -/
def kwReq (d : Cfg) (k : String) : Except PyError Val :=
  match List.lookup k d with
  | Option.some v => Except.ok v
  | Option.none => Except.error (PyError.typeError (k ++ " missing"))

/-- Optional-keyword read for a `**cfg` call: the declared default is used
when the key is absent. -/
def kwOpt (d : Cfg) (k : String) (dflt : Val) : Val :=
  (List.lookup k d).getD dflt

/-- Extract a Python int.  (For non-int operands Python would defer the
failure to the use site; the embedding surfaces it as a `TypeError`.) -/
def Val.asNat : Val → Except PyError Nat
  | Val.nat n => Except.ok n
  | _ => Except.error (PyError.typeError "int expected")

/-- Extract a Python float (ints coerce to floats). -/
def Val.asRat : Val → Except PyError Rat
  | Val.rat q => Except.ok q
  | Val.nat n => Except.ok (n : Rat)
  | _ => Except.error (PyError.typeError "float expected")

/-- Extract a 2-tuple of ints. -/
def Val.asPairE : Val → Except PyError (Nat × Nat)
  | Val.pair a b => Except.ok (a, b)
  | _ => Except.error (PyError.typeError "pair expected")

/-- Extract a string. -/
def Val.asStr : Val → Except PyError String
  | Val.str s => Except.ok s
  | _ => Except.error (PyError.typeError "str expected")

/-- Extract `None` or an int. -/
def Val.asOptNat : Val → Except PyError (Option Nat)
  | Val.pynone => Except.ok Option.none
  | Val.nat n => Except.ok (Option.some n)
  | _ => Except.error (PyError.typeError "optional int expected")

/-- Extract `None` or a float. -/
def Val.asOptRat : Val → Except PyError (Option Rat)
  | Val.pynone => Except.ok Option.none
  | Val.rat q => Except.ok (Option.some q)
  | Val.nat n => Except.ok (Option.some (n : Rat))
  | _ => Except.error (PyError.typeError "optional float expected")

/-- Extract the nested decoder-configuration dict. -/
def Val.asDec : Val → Except PyError UpConvDecoderCfg
  | Val.dec c => Except.ok c
  | _ => Except.error (PyError.typeError "decoder cfg expected")

/-- Modelled from the spec (the defining file `src/models/stems.py` is not
under `src/`): "Patch embedding / stem: initial convolutional layer(s)
converting raw input channels into token embeddings."  The stem is
constructed at lines 54-61 with the recorded arguments; it tokenizes an
input image over a patch grid obtained by dividing the spatial size by the
patch stride. -/
structure ConvStem where
  in_channels : Nat
  base_channels : Nat
  img_size : Nat × Nat
  patch_stride : Nat × Nat
  embed_dim : Nat
  hidden_dim : Option Nat
deriving DecidableEq

/-- Modelled from the spec: the patch-grid size of the stem on an input of
spatial size `H × W`. -/
def ConvStem.grid_size (c : ConvStem) (H W : Nat) : Nat × Nat :=
  (H / c.patch_stride.1, W / c.patch_stride.2)

/-- Modelled from the spec: `num_patches` is the number of tokens the stem
produces on an input of the configured image size. -/
def ConvStem.num_patches (c : ConvStem) : Nat :=
  (c.grid_size c.img_size.1 c.img_size.2).1 * (c.grid_size c.img_size.1 c.img_size.2).2

/-- Modelled from the spec: the number of tokens the stem produces on an
input of spatial size `H × W` (dimension 1 of the stem output `x`). -/
def ConvStem.out_num_tokens (c : ConvStem) (H W : Nat) : Nat :=
  (c.grid_size H W).1 * (c.grid_size H W).2

/-- The state recorded by `VisionTransformer.__init__` (lines 29-91) that
the claims refer to.  `pos_embed_len` is the second dimension of the
positional-embedding parameter created at lines 76-77:
`num_patches + 1`. -/
structure VisionTransformer where
  conv_stem : String
  patch_embed : ConvStem
  patch_size : Nat × Nat
  patch_stride : Nat × Nat
  n_layers : Nat
  d_model : Nat
  d_ff : Nat
  n_heads : Nat
  dropout : Rat
  n_cls : Nat
  image_size : Nat × Nat
  pos_embed_len : Nat
deriving DecidableEq

/-- The keyword arguments of `VisionTransformer.__init__` (lines 30-47).
`patch_size` and `patch_stride` are kept as raw Python values because the
constructor receives `16 : int`, tuples, or `None` (the default) there. -/
structure VTArgs where
  image_size : Nat × Nat
  patch_size : Val
  n_layers : Nat
  d_model : Nat
  d_ff : Nat
  n_heads : Nat
  n_cls : Nat
  dropout : Rat
  drop_path_rate : Rat
  channels : Nat
  ls_init_values : Option Rat
  patch_stride : Val
  conv_stem : String
  stem_base_channels : Nat
  stem_hidden_dim : Option Nat
deriving DecidableEq

/-- Body of `VisionTransformer.__init__`: line 53 asserts
`patch_stride == patch_size`; line 64 unpacks `patch_size` into
`PS_H, PS_W` (a `TypeError` unless it is a pair); lines 54-61 build the
`ConvStem`; lines 76-77 size the positional embedding with
`num_patches + 1` entries. -/
def VisionTransformer.init (a : VTArgs) : Except PyError VisionTransformer :=
  if a.patch_stride = a.patch_size then
    match a.patch_size, a.patch_stride with
    | Val.pair ph pw, Val.pair sh sw =>
      let pe : ConvStem :=
        { in_channels := a.channels, base_channels := a.stem_base_channels,
          img_size := a.image_size, patch_stride := (sh, sw),
          embed_dim := a.d_model, hidden_dim := a.stem_hidden_dim }
      Except.ok
        { conv_stem := a.conv_stem, patch_embed := pe,
          patch_size := (ph, pw), patch_stride := (sh, sw),
          n_layers := a.n_layers, d_model := a.d_model, d_ff := a.d_ff,
          n_heads := a.n_heads, dropout := a.dropout, n_cls := a.n_cls,
          image_size := a.image_size, pos_embed_len := pe.num_patches + 1 }
    | _, _ => Except.error (PyError.typeError "cannot unpack patch_size")
  else Except.error PyError.assertionError

/-- The parameter names of `VisionTransformer.__init__`; a `**cfg` call
with any other key is a `TypeError`. -/
def vtParamNames : List String :=
  ["image_size", "patch_size", "n_layers", "d_model", "d_ff", "n_heads",
   "n_cls", "dropout", "drop_path_rate", "channels", "ls_init_values",
   "patch_stride", "conv_stem", "stem_base_channels", "stem_hidden_dim"]

/-- Binding of the `VisionTransformer(**model_cfg)` call at line 133:
each parameter is read from the dict, with the defaults of lines 39-46 for
the optional ones. -/
def VisionTransformer.kwargsToArgs (d : Cfg) : Except PyError VTArgs := do
  if (PyDict.keys d).all (fun k => vtParamNames.contains k) then
    let image_size ← Val.asPairE (← kwReq d "image_size")
    let patch_size ← kwReq d "patch_size"
    let n_layers ← Val.asNat (← kwReq d "n_layers")
    let d_model ← Val.asNat (← kwReq d "d_model")
    let d_ff ← Val.asNat (← kwReq d "d_ff")
    let n_heads ← Val.asNat (← kwReq d "n_heads")
    let n_cls ← Val.asNat (← kwReq d "n_cls")
    let dropout ← Val.asRat (kwOpt d "dropout" (Val.rat (1 / 10)))
    let drop_path_rate ← Val.asRat (kwOpt d "drop_path_rate" (Val.rat 0))
    let channels ← Val.asNat (kwOpt d "channels" (Val.nat 3))
    let ls_init_values ← Val.asOptRat (kwOpt d "ls_init_values" Val.pynone)
    let patch_stride := kwOpt d "patch_stride" Val.pynone
    let conv_stem ← Val.asStr (kwOpt d "conv_stem" (Val.str "none"))
    let stem_base_channels ← Val.asNat (kwOpt d "stem_base_channels" (Val.nat 32))
    let stem_hidden_dim ← Val.asOptNat (kwOpt d "stem_hidden_dim" Val.pynone)
    Except.ok
      { image_size, patch_size, n_layers, d_model, d_ff, n_heads, n_cls,
        dropout, drop_path_rate, channels, ls_init_values, patch_stride,
        conv_stem, stem_base_channels, stem_hidden_dim }
  else Except.error (PyError.typeError "unexpected keyword argument")

/-- The call `VisionTransformer(**model_cfg)` (line 133). -/
def VisionTransformer.fromKwargs (d : Cfg) : Except PyError VisionTransformer := do
  let a ← VisionTransformer.kwargsToArgs d
  VisionTransformer.init a

/-- The dict manipulation of `create_vit` (lines 118-131), operating on the
local copy: pop `backbone`, write `d_ff = 4 * d_model`, pop
`new_patch_size` and `new_patch_stride`, and when `new_patch_size` is not
`None` write `patch_size` and `patch_stride` (the stride defaulting to the
size). -/
def create_vit_steps (cfg0 : Cfg) : Except PyError Cfg := do
  let r1 ← PyDict.pop cfg0 "backbone"
  let cfg := r1.2
  let dm ← Val.asNat (← PyDict.getItem cfg "d_model")
  let cfg := PyDict.set cfg "d_ff" (Val.nat (4 * dm))
  let r2 ← PyDict.pop cfg "new_patch_size"
  let new_patch_size := r2.1
  let cfg := r2.2
  let r3 ← PyDict.pop cfg "new_patch_stride"
  let new_patch_stride := r3.1
  let cfg := r3.2
  if new_patch_size ≠ Val.pynone then
    let new_patch_stride := if new_patch_stride = Val.pynone then new_patch_size else new_patch_stride
    let cfg := PyDict.set cfg "patch_size" new_patch_size
    let cfg := PyDict.set cfg "patch_stride" new_patch_stride
    Except.ok cfg
  else
    Except.ok cfg

/-- Function `create_vit` (lines 118-135).  Line 119 copies the dict of
the caller, so
every mutation acts on the copy; the heap-based `create_vit_st` below makes
that observable. -/
def create_vit (model_cfg : Cfg) : Except PyError VisionTransformer := do
  let cfg := model_cfg
  let cfg ← create_vit_steps cfg
  VisionTransformer.fromKwargs cfg

/-- A heap of Python dict objects; dict variables are references
(indices) into it. -/
structure Heap where
  dicts : List Cfg
deriving DecidableEq

/-- Dereference a dict. -/
def Heap.get (h : Heap) (r : Nat) : Cfg :=
  h.dicts.getD r []

/-- Overwrite the dict object behind a reference (an in-place mutation such
as `pop` or a subscript write). -/
def Heap.put (h : Heap) (r : Nat) (d : Cfg) : Heap :=
  ⟨h.dicts.set r d⟩

/-- Python `d.copy()` / dict construction: allocate a fresh object. -/
def Heap.alloc (h : Heap) (d : Cfg) : Nat × Heap :=
  (h.dicts.length, ⟨h.dicts ++ [d]⟩)

/-- Function `create_vit` with Python reference semantics: `model_cfg` is a
reference into the heap; line 119 (`model_cfg = model_cfg.copy()`)
allocates a fresh dict, and every subsequent `pop` and subscript write
(lines 120-131) mutates that fresh dict. -/
def create_vit_st (r : Nat) (h0 : Heap) : Except PyError VisionTransformer × Heap :=
  let al := Heap.alloc h0 (Heap.get h0 r)
  let r2 := al.1
  let h := al.2
  match PyDict.pop (Heap.get h r2) "backbone" with
  | Except.error e => (Except.error e, h)
  | Except.ok p1 =>
    let h := Heap.put h r2 p1.2
    match PyDict.getItem (Heap.get h r2) "d_model" with
    | Except.error e => (Except.error e, h)
    | Except.ok v =>
      match Val.asNat v with
      | Except.error e => (Except.error e, h)
      | Except.ok dm =>
        let h := Heap.put h r2 (PyDict.set (Heap.get h r2) "d_ff" (Val.nat (4 * dm)))
        match PyDict.pop (Heap.get h r2) "new_patch_size" with
        | Except.error e => (Except.error e, h)
        | Except.ok p2 =>
          let h := Heap.put h r2 p2.2
          match PyDict.pop (Heap.get h r2) "new_patch_stride" with
          | Except.error e => (Except.error e, h)
          | Except.ok p3 =>
            let h := Heap.put h r2 p3.2
            let h :=
              if p2.1 ≠ Val.pynone then
                let nst := if p3.1 = Val.pynone then p2.1 else p3.1
                let h := Heap.put h r2 (PyDict.set (Heap.get h r2) "patch_size" p2.1)
                Heap.put h r2 (PyDict.set (Heap.get h r2) "patch_stride" nst)
              else h
            (VisionTransformer.fromKwargs (Heap.get h r2), h)

/-- Modelled from the spec (the defining file `src/models/decoders.py` is
not under `src/`): "Decoder: module upsampling encoder features back to
per-pixel or per-point predictions."  `DecoderUpConv(**decoder_cfg)`
(line 146) stores its configuration. -/
structure Decoder where
  n_cls : Nat
  d_decoder : Nat
  scale_factor : Nat × Nat
  skip_filters : Nat
  d_encoder : Nat
  patch_size : Nat × Nat
  patch_stride : Nat × Nat
deriving DecidableEq

/-- Modelled from the spec (the defining file
`src/models/rangevit_kpconv.py` is not under `src/`): "KPConv classifier:
point-based convolutional classification head for 3D point clouds."
`KPClassifier(...)` (lines 163-166) stores its channel configuration. -/
structure KPClassifier where
  in_channels : Nat
  out_channels : Nat
  num_classes : Nat
deriving DecidableEq

/-- Modelled from the spec: the assembled segmentation model — a stem and
transformer encoder, a decoder, and (per the spec, optionally) a KPConv
classifier head.  `withKP` is the assembly `RangeViT_KPConv(encoder,
decoder, kpclassifier, n_cls)` of line 167; `plain` represents an assembly
without the point-based classifier head, which the spec presents as the
`use_kpconv = False` outcome. -/
inductive AssembledModel where
  | plain : VisionTransformer → Decoder → Nat → AssembledModel
  | withKP : VisionTransformer → Decoder → KPClassifier → Nat → AssembledModel
deriving DecidableEq

/-- Does the assembled model contain a KPConv classifier head? -/
def AssembledModel.hasKP : AssembledModel → Bool
  | AssembledModel.plain _ _ _ => false
  | AssembledModel.withKP _ _ _ _ => true

/-- Function `create_decoder` (lines 138-150): copy the decoder config, pop `name`,
add `d_encoder`, `patch_size` (`patch_stride` in the `up_conv` branch), and
build `DecoderUpConv`; any other name raises `ValueError`. -/
def create_decoder (encoder : VisionTransformer) (decoder_cfg : UpConvDecoderCfg) :
    Except PyError Decoder :=
  let dname := decoder_cfg.name
  if dname = "up_conv" then
    Except.ok
      { n_cls := decoder_cfg.n_cls, d_decoder := decoder_cfg.d_decoder,
        scale_factor := decoder_cfg.scale_factor,
        skip_filters := decoder_cfg.skip_filters,
        d_encoder := encoder.d_model, patch_size := encoder.patch_size,
        patch_stride := encoder.patch_stride }
  else Except.error (PyError.valueError ("Unknown decoder: " ++ dname))

/-- Function `create_rangevit` (lines 153-169): copy the config, pop `decoder`,
write its `n_cls`, build the encoder with `create_vit`, the decoder with
`create_decoder`, a `KPClassifier`, and assemble `RangeViT_KPConv`.  Note
that the source never reads `use_kpconv`. -/
def create_rangevit (model_cfg : Cfg) (use_kpconv : Bool) : Except PyError AssembledModel := do
  let cfg := model_cfg
  let pd ← PyDict.pop cfg "decoder"
  let cfg := pd.2
  let decoder_cfg0 ← Val.asDec pd.1
  let n_cls ← Val.asNat (← PyDict.getItem cfg "n_cls")
  let decoder_cfg := { decoder_cfg0 with n_cls := n_cls }
  let encoder ← create_vit cfg
  let decoder ← create_decoder encoder decoder_cfg
  let kpclassifier : KPClassifier :=
    { in_channels := decoder_cfg.d_decoder, out_channels := decoder_cfg.d_decoder,
      num_classes := n_cls }
  Except.ok (AssembledModel.withKP encoder decoder kpclassifier n_cls)

/-- The keyword arguments of `RangeViT.__init__` (lines 172-191).
`new_patch_size` and `new_patch_stride` are raw Python values (`None` or
tuples). -/
structure RangeViTArgs where
  in_channels : Nat
  n_cls : Nat
  backbone : String
  image_size : Nat × Nat
  new_patch_size : Val
  new_patch_stride : Val
  reuse_pos_emb : Bool
  reuse_patch_emb : Bool
  conv_stem : String
  stem_base_channels : Nat
  stem_hidden_dim : Option Nat
  skip_filters : Nat
  decoder : String
  up_conv_d_decoder : Nat
  up_conv_scale_factor : Nat × Nat
  use_kpconv : Bool
deriving DecidableEq

/-- The default arguments of `RangeViT.__init__` (lines 174-190). -/
def RangeViTArgs.defaults : RangeViTArgs :=
  { in_channels := 5, n_cls := 17, backbone := "vit_small_patch16_384",
    image_size := (32, 384), new_patch_size := Val.pynone,
    new_patch_stride := Val.pynone, reuse_pos_emb := false,
    reuse_patch_emb := false, conv_stem := "none", stem_base_channels := 32,
    stem_hidden_dim := Option.none, skip_filters := 0, decoder := "up_conv",
    up_conv_d_decoder := 64, up_conv_scale_factor := (2, 8),
    use_kpconv := false }

/-- The pretrained-weight surgery of lines 245-255: delete
`encoder.pos_embed`, `encoder.patch_embed.proj.weight`,
`encoder.patch_embed.proj.bias`, then collect every key containing the
substring `decoder` and delete those too. -/
def stateDictSurgery {α : Type} (sd : PyDict α) : Except PyError (PyDict α) := do
  let sd ← PyDict.del sd "encoder.pos_embed"
  let sd ← PyDict.del sd "encoder.patch_embed.proj.weight"
  let sd ← PyDict.del sd "encoder.patch_embed.proj.bias"
  let decoder_keys := (PyDict.keys sd).filter (fun k => strIn "decoder" k)
  decoder_keys.foldlM (fun acc k => PyDict.del acc k) sd

/-- The call `load_state_dict(..., strict=False)` (line 257): every model entry
whose key appears in the provided dict takes the provided value; missing
and unexpected keys are only reported, not loaded. -/
def load_state_dict {α : Type} (model_sd provided : PyDict α) : PyDict α :=
  model_sd.map (fun p =>
    match List.lookup p.1 provided with
    | Option.some v => (p.1, v)
    | Option.none => p)

/-- Conversion of an optional int argument to the Python value placed in
`net_kwargs`. -/
def optNatToVal : Option Nat → Val
  | Option.some n => Val.nat n
  | Option.none => Val.pynone

/-- Method `RangeViT.__init__` (lines 172-258).  The construction-time parameter
state of the assembled model is abstracted as the input state dict
`init_sd` (the tensors produced by the framework initializers), and
`pretrained` stands for the `model` entry of `torch.load(pretrained_path)` — `None`
when `pretrained_path` is `None`.  Steps: backbone validation (196-204),
decoder config (206-212, an unrecognized decoder leaves `decoder_cfg`
unbound, a `NameError` at line 218), `net_kwargs` assembly (215-232),
`create_rangevit` (235), and the optional pretrained-weight surgery and
non-strict load (241-257). -/
def RangeViT_init {α : Type} (a : RangeViTArgs) (init_sd : PyDict α)
    (pretrained : Option (PyDict α)) : Except PyError (AssembledModel × PyDict α) := do
  let hp ←
    if a.backbone = "vit_small_patch16_384" then
      Except.ok ((6 : Nat), (12 : Nat), (16 : Nat), (0 : Rat), ((1 : Rat) / 10), (384 : Nat))
    else Except.error (PyError.nameError "Not known ViT backbone.")
  let n_heads := hp.1
  let n_layers := hp.2.1
  let patch_size := hp.2.2.1
  let dropout := hp.2.2.2.1
  let drop_path_rate := hp.2.2.2.2.1
  let d_model := hp.2.2.2.2.2
  let decoder_cfg ←
    if a.decoder = "up_conv" then
      Except.ok
        { n_cls := a.n_cls, name := "up_conv", d_decoder := a.up_conv_d_decoder,
          scale_factor := a.up_conv_scale_factor,
          skip_filters := a.skip_filters : UpConvDecoderCfg }
    else Except.error (PyError.nameError "decoder_cfg")
  let net_kwargs : Cfg := [
    ("backbone", Val.str a.backbone),
    ("d_model", Val.nat d_model),
    ("decoder", Val.dec decoder_cfg),
    ("drop_path_rate", Val.rat drop_path_rate),
    ("dropout", Val.rat dropout),
    ("channels", Val.nat a.in_channels),
    ("image_size", Val.pair a.image_size.1 a.image_size.2),
    ("n_cls", Val.nat a.n_cls),
    ("n_heads", Val.nat n_heads),
    ("n_layers", Val.nat n_layers),
    ("patch_size", Val.nat patch_size),
    ("new_patch_size", a.new_patch_size),
    ("new_patch_stride", a.new_patch_stride),
    ("conv_stem", Val.str a.conv_stem),
    ("stem_base_channels", Val.nat a.stem_base_channels),
    ("stem_hidden_dim", optNatToVal a.stem_hidden_dim)]
  let model ← create_rangevit net_kwargs a.use_kpconv
  match pretrained with
  | Option.none => Except.ok (model, init_sd)
  | Option.some psd => do
    let psd2 ← stateDictSurgery psd
    Except.ok (model, load_state_dict init_sd psd2)

/-- The keys the claim about the pretrained-weight surgery says are
stripped: the three explicitly deleted keys, and every key containing the
substring `decoder`. -/
def c1Stripped (k : String) : Bool :=
  k == "encoder.pos_embed" || k == "encoder.patch_embed.proj.weight" ||
    k == "encoder.patch_embed.proj.bias" || strIn "decoder" k

/-- The operations `VisionTransformer.forward` (lines 100-115) performs,
over an abstract tensor type `T`: the stem (`self.patch_embed`), the class
token expanded to the batch size, concatenation along the token dimension,
the positional embedding and tensor addition, dropout, the transformer
blocks in registration order, and the final layer normalization. -/
structure VTForward (T : Type) where
  patch_embed : T → T × T
  cls_expand : Nat → T
  cat2 : T → T → T
  pos_embed : T
  tadd : T → T → T
  drop : T → T
  blocks : List (T → T)
  lnorm : T → T
  batch_of : T → Nat

/-- Method `VisionTransformer.forward` (lines 100-115), transcribed line by line:
stem, class-token prepend, positional embedding, dropout, blocks in order,
final norm; returns the normalized tokens and the untouched skip
features.  The `return_features` parameter is accepted and never read, as
in the source. -/
def VTForward.forward {T : Type} (m : VTForward T) (im : T) (return_features : Bool) : T × T :=
  let B := m.batch_of im
  let xs := m.patch_embed im
  let x := xs.1
  let skip := xs.2
  let cls_tokens := m.cls_expand B
  let x := m.cat2 cls_tokens x
  let pos_embed := m.pos_embed
  let x := m.tadd x pos_embed
  let x := m.drop x
  let x := m.blocks.foldl (fun acc blk => blk acc) x
  let x := m.lnorm x
  (x, skip)

/-- An `nn.Parameter`: its element count and `requires_grad` flag. -/
structure TensorParam where
  numel : Nat
  requires_grad : Bool
deriving DecidableEq

/-- Function `count_parameters` (lines 271-272): the sum of `numel` over the
parameters with `requires_grad` set. -/
def count_parameters (ps : List TensorParam) : Nat :=
  ((ps.filter (fun p => p.requires_grad)).map TensorParam.numel).sum

/-- The parameters of the ViT encoder as the framework registers them: the
parameters of the `patch_embed` sub-module (the conv stem) and the
remaining parameters of the encoder itself (class token, positional embedding,
transformer blocks, final norm) — each parameter listed once. -/
structure EncoderModule where
  stem_params : List TensorParam
  core_params : List TensorParam
deriving DecidableEq

/-- Python `encoder.parameters()`: all parameters of the module tree, each
once. -/
def EncoderModule.parameters (e : EncoderModule) : List TensorParam :=
  e.core_params ++ e.stem_params

/-- The parameter tree of `self.rangevit`: encoder (with its stem),
decoder, and KPConv classifier. -/
structure RangeViTModules where
  encoder : EncoderModule
  decoder_params : List TensorParam
  kp_params : List TensorParam
deriving DecidableEq

/-- Python `self.rangevit.parameters()`. -/
def RangeViTModules.parameters (m : RangeViTModules) : List TensorParam :=
  EncoderModule.parameters m.encoder ++ m.decoder_params ++ m.kp_params

/-- The statistics dictionary returned by `counter_model_parameters`
(lines 260-266). -/
structure ParamStats where
  total_num_parameters : Nat
  decoder_num_parameters : Nat
  stem_num_parameters : Nat
  encoder_num_parameters : Nat
deriving DecidableEq

/-- Method `counter_model_parameters` (lines 260-266): totals for the whole
model, the decoder, the stem, and the encoder with the stem count
subtracted. -/
def counter_model_parameters (m : RangeViTModules) : ParamStats :=
  let total := count_parameters (RangeViTModules.parameters m)
  let dec := count_parameters m.decoder_params
  let stem := count_parameters m.encoder.stem_params
  { total_num_parameters := total, decoder_num_parameters := dec,
    stem_num_parameters := stem,
    encoder_num_parameters := count_parameters (EncoderModule.parameters m.encoder) - stem }

/-- The token count `VisionTransformer.forward` produces after prepending
the class token (line 105) on an input of spatial size `H × W`. -/
def VisionTransformer.forward_tokens (vt : VisionTransformer) (H W : Nat) : Nat :=
  ConvStem.out_num_tokens vt.patch_embed H W + 1

/-- The configuration dict `create_vit` receives in the construction flow
of `RangeViT` with `new_patch_size = (2, 8)` (the `net_kwargs` of lines
215-232 after `create_rangevit` pops `decoder`). -/
def exCfg : Cfg := [
  ("backbone", Val.str "vit_small_patch16_384"),
  ("d_model", Val.nat 384),
  ("drop_path_rate", Val.rat (1 / 10)),
  ("dropout", Val.rat 0),
  ("channels", Val.nat 5),
  ("image_size", Val.pair 32 384),
  ("n_cls", Val.nat 17),
  ("n_heads", Val.nat 6),
  ("n_layers", Val.nat 12),
  ("patch_size", Val.nat 16),
  ("new_patch_size", Val.pair 2 8),
  ("new_patch_stride", Val.pynone),
  ("conv_stem", Val.str "ConvStem"),
  ("stem_base_channels", Val.nat 32),
  ("stem_hidden_dim", Val.pynone)]

/-- The arguments `VisionTransformer.__init__` receives from
`create_vit exCfg`. -/
def exVTArgs : VTArgs :=
  { image_size := (32, 384), patch_size := Val.pair 2 8, n_layers := 12,
    d_model := 384, d_ff := 1536, n_heads := 6, n_cls := 17, dropout := 0,
    drop_path_rate := 1 / 10, channels := 5, ls_init_values := Option.none,
    patch_stride := Val.pair 2 8, conv_stem := "ConvStem",
    stem_base_channels := 32, stem_hidden_dim := Option.none }

/-- The encoder `create_vit exCfg` builds. -/
def exVT : VisionTransformer :=
  { conv_stem := "ConvStem",
    patch_embed :=
      { in_channels := 5, base_channels := 32, img_size := (32, 384),
        patch_stride := (2, 8), embed_dim := 384, hidden_dim := Option.none },
    patch_size := (2, 8), patch_stride := (2, 8), n_layers := 12,
    d_model := 384, d_ff := 1536, n_heads := 6, dropout := 0, n_cls := 17,
    image_size := (32, 384), pos_embed_len := 769 }

/-- The decoder configuration of lines 207-212 at the default
arguments. -/
def exDecCfg : UpConvDecoderCfg :=
  { n_cls := 17, name := "up_conv", d_decoder := 64, scale_factor := (2, 8),
    skip_filters := 0 }

/-- A full `net_kwargs`-shaped dict for `create_rangevit`. -/
def exNetCfg : Cfg := ("decoder", Val.dec exDecCfg) :: exCfg

/-- Dict `exCfg` with an explicit `new_patch_stride` different from
`new_patch_size`. -/
def c10BadCfg : Cfg := PyDict.set exCfg "new_patch_stride" (Val.pair 4 4)

/-- A one-dict heap for exercising `create_vit_st`. -/
def exHeap : Heap := ⟨[exCfg]⟩

/-- A small pretrained state dict containing the three explicitly stripped
keys, a decoder key, and an encoder-block key. -/
def c1ExDict : PyDict Nat := [
  ("encoder.pos_embed", 0),
  ("encoder.patch_embed.proj.weight", 1),
  ("encoder.patch_embed.proj.bias", 2),
  ("decoder.head.weight", 3),
  ("encoder.blocks.0.attn.qkv.weight", 4)]

/-- Default arguments with an unrecognized backbone name. -/
def badBackboneArgs : RangeViTArgs :=
  { RangeViTArgs.defaults with backbone := "resnet50" }

/-- Default arguments with `new_patch_size = (2, 8)` (a configuration on
which construction succeeds). -/
def goodArgs : RangeViTArgs :=
  { RangeViTArgs.defaults with new_patch_size := Val.pair 2 8 }


/-! Generic facts about `Except` binds and the dict operations. -/

theorem ok_bind {α β : Type} (a : α) (f : α → Except PyError β) :
    (Except.ok a >>= f) = f a := rfl

theorem error_bind {α β : Type} (e : PyError) (f : α → Except PyError β) :
    ((Except.error e : Except PyError α) >>= f) = Except.error e := rfl

theorem except_bind_ok {α β : Type} {x : Except PyError α} {f : α → Except PyError β} {c : β} :
    x >>= f = Except.ok c ↔ ∃ b, x = Except.ok b ∧ f b = Except.ok c := by
  cases x <;> simp [ok_bind, error_bind]

theorem except_bind_error {α β : Type} {x : Except PyError α} {f : α → Except PyError β}
    {e : PyError} :
    x >>= f = Except.error e ↔
      (x = Except.error e ∨ ∃ b, x = Except.ok b ∧ f b = Except.error e) := by
  cases x <;> simp [ok_bind, error_bind]

theorem lookup_filter_of_keep {α : Type} {q : String × α → Bool} {d : PyDict α} {k : String}
    (hq : ∀ v, q (k, v) = true) :
    List.lookup k (d.filter q) = List.lookup k d := by
  induction d with
  | nil => rfl
  | cons p rest ih =>
    rcases p with ⟨a, v⟩
    by_cases hak : a = k
    · subst hak
      simp [List.filter_cons, hq v, List.lookup_cons]
    · have hka : (k == a) = false := by simp [beq_iff_eq]; exact fun h => hak h.symm
      cases hqa : q (a, v) <;> simp [List.filter_cons, hqa, List.lookup_cons, hka, ih]

theorem lookup_erase_ne {α : Type} {d : PyDict α} {k k2 : String} (h : k ≠ k2) :
    List.lookup k (PyDict.erase d k2) = List.lookup k d := by
  unfold PyDict.erase
  exact lookup_filter_of_keep (fun v => by simp [bne_iff_ne]; exact h)

theorem lookup_set_self {α : Type} (d : PyDict α) (k : String) (v : α) :
    List.lookup k (PyDict.set d k v) = Option.some v := by
  induction d with
  | nil => simp [PyDict.set, List.lookup_cons]
  | cons p rest ih =>
    by_cases hp : p.1 = k
    · simp [PyDict.set, hp, List.lookup_cons]
    · have hkp : (k == p.1) = false := by simp [beq_iff_eq]; exact fun h => hp h.symm
      rcases p with ⟨a, w⟩
      simp only [PyDict.set, if_neg hp]
      simp [List.lookup_cons, hkp, ih]

theorem lookup_set_ne {α : Type} (d : PyDict α) {k k2 : String} (v : α) (h : k ≠ k2) :
    List.lookup k (PyDict.set d k2 v) = List.lookup k d := by
  induction d with
  | nil =>
    have hkk : (k == k2) = false := by simp [beq_iff_eq]; exact h
    simp [PyDict.set, List.lookup_cons, hkk]
  | cons p rest ih =>
    by_cases hp : p.1 = k2
    · have hkk : (k == k2) = false := by simp [beq_iff_eq]; exact h
      have hkp : (k == p.1) = (k == k2) := by rw [hp]
      rcases p with ⟨a, w⟩
      simp only at hp
      simp [PyDict.set, hp, List.lookup_cons, hkk, beq_iff_eq, hp ▸ h]
    · rcases p with ⟨a, w⟩
      simp only at hp
      simp only [PyDict.set, if_neg hp]
      simp [List.lookup_cons, ih]

theorem keys_erase {α : Type} (d : PyDict α) (k : String) :
    PyDict.keys (PyDict.erase d k) = (PyDict.keys d).filter (fun x => x != k) := by
  unfold PyDict.keys PyDict.erase
  rw [List.filter_map]
  congr 1

theorem mem_keys_erase {α : Type} {d : PyDict α} {k k2 : String} :
    k2 ∈ PyDict.keys (PyDict.erase d k) ↔ k2 ∈ PyDict.keys d ∧ k2 ≠ k := by
  rw [keys_erase]
  simp [List.mem_filter, bne_iff_ne]

theorem PyDict_del_ok {α : Type} {d : PyDict α} {k : String} (h : k ∈ PyDict.keys d) :
    PyDict.del d k = Except.ok (PyDict.erase d k) := by
  simp [PyDict.del, h]

theorem foldlM_del_eq {α : Type} (ks : List String) :
    ∀ d : PyDict α, ks.Nodup → (∀ k ∈ ks, k ∈ PyDict.keys d) →
      ks.foldlM (fun acc k => PyDict.del acc k) d =
        Except.ok (d.filter (fun p => !(ks.contains p.1))) := by
  induction ks with
  | nil =>
    intro d _ _
    simp [List.foldlM_nil]
    rfl
  | cons k ks ih =>
    intro d hnd hmem
    have hk : k ∈ PyDict.keys d := hmem k (by simp)
    rcases List.nodup_cons.mp hnd with ⟨hknot, hndk⟩
    rw [List.foldlM_cons, PyDict_del_ok hk, ok_bind]
    rw [ih (PyDict.erase d k) hndk ?memrest]
    case memrest =>
      intro k2 hk2
      exact mem_keys_erase.mpr ⟨hmem k2 (by simp [hk2]), fun he => hknot (he ▸ hk2)⟩
    unfold PyDict.erase
    rw [List.filter_filter]
    congr 1
    apply List.filter_congr
    intro p _
    cases hc : ks.contains p.1 <;> cases he : p.1 == k <;>
      simp_all [List.contains_cons, Bool.not_or, bne]

theorem contains_true_iff_mem {l : List String} {x : String} :
    l.contains x = true ↔ x ∈ l := List.elem_iff

/-- Claim C1: when a pretrained state dictionary is loaded, the surgery of
lines 245-255 removes exactly the keys `encoder.pos_embed`,
`encoder.patch_embed.proj.weight`, `encoder.patch_embed.proj.bias`, and
every key containing the substring `decoder`; all other entries are kept
unchanged (and are the ones passed to the non-strict `load_state_dict`).
The hypotheses say the dict is a genuine Python dict (unique keys) holding
the three explicitly deleted keys, as a checkpoint saved by this model
does. -/
theorem surgery_strips_exactly_claimed_keys {α : Type} (sd : PyDict α)
    (hnd : (PyDict.keys sd).Nodup)
    (h1 : "encoder.pos_embed" ∈ PyDict.keys sd)
    (h2 : "encoder.patch_embed.proj.weight" ∈ PyDict.keys sd)
    (h3 : "encoder.patch_embed.proj.bias" ∈ PyDict.keys sd) :
    stateDictSurgery sd = Except.ok (sd.filter (fun p => !c1Stripped p.1)) := by
  have h2a : "encoder.patch_embed.proj.weight" ∈
      PyDict.keys (PyDict.erase sd "encoder.pos_embed") :=
    mem_keys_erase.mpr ⟨h2, by decide⟩
  have h3a : "encoder.patch_embed.proj.bias" ∈
      PyDict.keys (PyDict.erase (PyDict.erase sd "encoder.pos_embed")
        "encoder.patch_embed.proj.weight") :=
    mem_keys_erase.mpr ⟨mem_keys_erase.mpr ⟨h3, by decide⟩, by decide⟩
  have hnd3 : (PyDict.keys (PyDict.erase (PyDict.erase (PyDict.erase sd
      "encoder.pos_embed") "encoder.patch_embed.proj.weight")
      "encoder.patch_embed.proj.bias")).Nodup := by
    rw [keys_erase, keys_erase, keys_erase]
    exact ((hnd.filter _).filter _).filter _
  unfold stateDictSurgery
  rw [PyDict_del_ok h1, ok_bind, PyDict_del_ok h2a, ok_bind, PyDict_del_ok h3a, ok_bind]
  rw [foldlM_del_eq _ _ (hnd3.filter _) (fun k hk => (List.mem_filter.mp hk).1)]
  congr 1
  unfold PyDict.erase
  rw [List.filter_filter, List.filter_filter, List.filter_filter]
  apply List.filter_congr
  intro p hp
  by_cases he1 : p.1 = "encoder.pos_embed"
  · simp [c1Stripped, he1, bne]
  · by_cases he2 : p.1 = "encoder.patch_embed.proj.weight"
    · simp [c1Stripped, he2, bne]
    · by_cases he3 : p.1 = "encoder.patch_embed.proj.bias"
      · simp [c1Stripped, he3, bne]
      · have hp3 : p ∈ PyDict.erase (PyDict.erase (PyDict.erase sd
            "encoder.pos_embed") "encoder.patch_embed.proj.weight")
            "encoder.patch_embed.proj.bias" := by
          unfold PyDict.erase
          refine List.mem_filter.mpr ⟨List.mem_filter.mpr
            ⟨List.mem_filter.mpr ⟨hp, ?_⟩, ?_⟩, ?_⟩ <;>
            simp [bne_iff_ne, he1, he2, he3]
        have hkey : p.1 ∈ PyDict.keys (PyDict.erase (PyDict.erase (PyDict.erase sd
            "encoder.pos_embed") "encoder.patch_embed.proj.weight")
            "encoder.patch_embed.proj.bias") :=
          List.mem_map.mpr ⟨p, hp3, rfl⟩
        have hcont : ((PyDict.keys (PyDict.erase (PyDict.erase (PyDict.erase sd
            "encoder.pos_embed") "encoder.patch_embed.proj.weight")
            "encoder.patch_embed.proj.bias")).filter
              (fun k => strIn "decoder" k)).contains p.1 = strIn "decoder" p.1 := by
          cases hstr : strIn "decoder" p.1
          · rw [Bool.eq_false_iff]
            intro hc
            have hmem := List.mem_filter.mp (contains_true_iff_mem.mp hc)
            rw [hstr] at hmem
            exact Bool.false_ne_true hmem.2
          · exact contains_true_iff_mem.mpr (List.mem_filter.mpr ⟨hkey, hstr⟩)
        simp only [PyDict.erase] at hcont
        rw [hcont]
        have b1 : (p.1 == "encoder.pos_embed") = false := beq_eq_false_iff_ne.mpr he1
        have b2 : (p.1 == "encoder.patch_embed.proj.weight") = false := beq_eq_false_iff_ne.mpr he2
        have b3 : (p.1 == "encoder.patch_embed.proj.bias") = false := beq_eq_false_iff_ne.mpr he3
        simp [c1Stripped, bne, b1, b2, b3]

theorem surgery_strips_exactly_claimed_keys_witness :
    stateDictSurgery c1ExDict =
      Except.ok [("encoder.blocks.0.attn.qkv.weight", 4)] := by
  rw [surgery_strips_exactly_claimed_keys c1ExDict (by decide) (by decide) (by decide)
    (by decide)]
  rfl

/-- Claim C4: `VisionTransformer.forward` performs, for every input and
independently of `return_features`, the fixed pipeline: stem, class-token
prepend, positional-embedding addition, dropout, the blocks folded in
registration order, final layer norm — returning the normalized tokens
paired with the skip features exactly as the stem produced them. -/
theorem forward_is_fixed_pipeline {T : Type} (m : VTForward T) (im : T) (rf : Bool) :
    VTForward.forward m im rf =
      (m.lnorm (m.blocks.foldl (fun acc blk => blk acc)
        (m.drop (m.tadd (m.cat2 (m.cls_expand (m.batch_of im)) (m.patch_embed im).1)
          m.pos_embed))),
       (m.patch_embed im).2) := rfl

/-- Claim C6: `count_parameters` sums `numel` over exactly the
`requires_grad` parameters, and in `counter_model_parameters` the
`encoder_num_parameters` and `stem_num_parameters` entries add back up to
`count_parameters` of the whole encoder — the stem is subtracted, never
counted twice. -/
theorem count_parameters_exact_and_stem_not_double_counted :
    (∀ (p : TensorParam) (ps : List TensorParam),
      count_parameters (p :: ps) =
        (if p.requires_grad then p.numel else 0) + count_parameters ps) ∧
    count_parameters [] = 0 ∧
    (∀ m : RangeViTModules,
      (counter_model_parameters m).encoder_num_parameters +
          (counter_model_parameters m).stem_num_parameters =
        count_parameters (EncoderModule.parameters m.encoder)) := by
  refine ⟨?_, rfl, ?_⟩
  · intro p ps
    cases hg : p.requires_grad <;> simp [count_parameters, List.filter_cons, hg]
  · intro m
    have happ : count_parameters (EncoderModule.parameters m.encoder) =
        count_parameters m.encoder.core_params + count_parameters m.encoder.stem_params := by
      simp [count_parameters, EncoderModule.parameters, List.filter_append,
        List.map_append, List.sum_append]
    simp only [counter_model_parameters, happ]
    omega

theorem rangevit_sd_unchanged_of_ok {α : Type} {a : RangeViTArgs} {sd : PyDict α}
    {m : AssembledModel} {s : PyDict α}
    (h : RangeViT_init a sd Option.none = Except.ok (m, s)) : s = sd := by
  unfold RangeViT_init at h
  by_cases hb : a.backbone = "vit_small_patch16_384"
  · by_cases hd : a.decoder = "up_conv"
    · simp only [if_pos hb, if_pos hd, ok_bind, except_bind_ok] at h
      obtain ⟨model, _, h⟩ := h
      simp only [Except.ok.injEq, Prod.mk.injEq] at h
      exact h.2.symm
    · simp only [if_pos hb, if_neg hd, ok_bind, error_bind] at h
      exact Except.noConfusion h
  · simp only [if_neg hb, error_bind] at h
    exact Except.noConfusion h

/-- Claim C7: with `pretrained_path = None` no state-dict loading happens:
whatever `RangeViT.__init__` returns carries the construction-time
parameter state `sd` untouched. -/
theorem no_pretrained_path_no_load {α : Type} (a : RangeViTArgs) (sd : PyDict α) :
    RangeViT_init a sd Option.none =
      Except.map (fun r => (r.1, sd)) (RangeViT_init a sd Option.none) := by
  cases h : RangeViT_init a sd Option.none with
  | error e => simp [Except.map]
  | ok r =>
    rcases r with ⟨m, s⟩
    have hs := rangevit_sd_unchanged_of_ok h
    subst hs
    simp [Except.map]

/-- Counterexample to claim C2: the all-default configuration uses the
recognized backbone, yet construction raises — the line 53
`assert patch_stride == patch_size` fails because `new_patch_size` is
`None`, so the stride stays `None` while the patch size is `16`. -/
theorem rangevit_defaults_assertion_failure :
    RangeViT_init (α := Nat) RangeViTArgs.defaults [] Option.none =
      Except.error PyError.assertionError := rfl

theorem asOptNat_optNatToVal (o : Option Nat) :
    Val.asOptNat (optNatToVal o) = Except.ok o := by
  cases o <;> rfl

theorem exists_ok_pair {β γ : Type} (x : Except PyError (β × γ)) (c : γ)
    (h : Except.map Prod.snd x = Except.ok c) : ∃ m, x = Except.ok (m, c) := by
  cases x with
  | error e => simp [Except.map] at h
  | ok r =>
    rcases r with ⟨m, s⟩
    simp [Except.map] at h
    exact ⟨m, by rw [h]⟩

/-- Claim C2 (amended): an unrecognized backbone name makes
`RangeViT.__init__` raise `NameError` immediately — before any sub-module
is created, whatever the other arguments are.  But it is not the only
error path: with the recognized backbone the construction still fails
(e.g. the all-default arguments hit the line 53 assertion, see the
counterexample); it completes exactly on configurations such as
`decoder = up_conv` with `new_patch_size` a pair and `new_patch_stride`
either `None` or equal to it. -/
theorem backbone_error_immediate_but_not_only_error_path {α : Type} (a : RangeViTArgs)
    (sd : PyDict α) :
    (a.backbone ≠ "vit_small_patch16_384" →
      RangeViT_init a sd Option.none =
        Except.error (PyError.nameError "Not known ViT backbone.")) ∧
    (a.backbone = "vit_small_patch16_384" → a.decoder = "up_conv" →
      ∀ p q : Nat, a.new_patch_size = Val.pair p q →
        (a.new_patch_stride = Val.pynone ∨ a.new_patch_stride = Val.pair p q) →
        ∃ m, RangeViT_init a sd Option.none = Except.ok (m, sd)) := by
  constructor
  · intro hne
    unfold RangeViT_init
    simp only [if_neg hne, error_bind]
  · intro hb hd p q hps hstr
    obtain ⟨a1, a2, a3, a4, a5, a6, a7, a8, a9, a10, a11, a12, a13, a14, a15, a16⟩ := a
    simp only at hb hd hps hstr
    subst hb hd hps
    apply exists_ok_pair
    rcases hstr with h | h <;> subst h <;>
      simp [Except.map, RangeViT_init, create_rangevit, create_vit, create_vit_steps,
        VisionTransformer.fromKwargs, VisionTransformer.kwargsToArgs, VisionTransformer.init,
        kwReq, kwOpt, PyDict.pop, PyDict.getItem, PyDict.erase, PyDict.set, PyDict.keys,
        vtParamNames, Val.asNat, Val.asRat, Val.asPairE, Val.asStr, asOptNat_optNatToVal,
        Val.asOptRat, Val.asDec, create_decoder, List.lookup_cons,
        List.lookup_nil, ok_bind, error_bind, Option.getD]

theorem backbone_error_immediate_but_not_only_error_path_witness :
    (RangeViT_init (α := Nat) badBackboneArgs [("w", 7)] Option.none =
      Except.error (PyError.nameError "Not known ViT backbone.")) ∧
    (∃ m, RangeViT_init (α := Nat) goodArgs [("w", 7)] Option.none =
      Except.ok (m, [("w", 7)])) :=
  ⟨(backbone_error_immediate_but_not_only_error_path badBackboneArgs [("w", 7)]).1
      (by decide),
   (backbone_error_immediate_but_not_only_error_path goodArgs [("w", 7)]).2
      rfl rfl 2 8 rfl (Or.inl rfl)⟩

/-- Counterexample to claim C3: with `use_kpconv = False`,
`create_rangevit` still returns a model containing the `KPClassifier`
head — the flag is accepted but never read (line 153 vs lines
163-167). -/
theorem use_kpconv_false_still_builds_kp_head :
    Except.map AssembledModel.hasKP (create_rangevit exNetCfg false) = Except.ok true := rfl

theorem create_rangevit_ok_hasKP {cfg : Cfg} {k : Bool} {m : AssembledModel}
    (h : create_rangevit cfg k = Except.ok m) : AssembledModel.hasKP m = true := by
  unfold create_rangevit at h
  simp only [except_bind_ok] at h
  obtain ⟨pd, _, dc0, _, nv, _, ncls, _, enc, _, dec, _, h⟩ := h
  injection h with h
  subst h
  rfl

/-- Claim C3 (amended): the model assembled by `create_rangevit` is a
stem-plus-transformer encoder, a decoder, and always the KPConv
classifier head: the `use_kpconv` flag is accepted but ignored, so the
result is the same for every flag value and every successfully returned
model contains the `KPClassifier` head, also when `use_kpconv` is
`False`. -/
theorem kp_head_always_built (cfg : Cfg) (k : Bool) :
    create_rangevit cfg k = create_rangevit cfg true ∧
    Except.map AssembledModel.hasKP (create_rangevit cfg k) =
      Except.map (fun _ => true) (create_rangevit cfg k) := by
  refine ⟨rfl, ?_⟩
  cases h : create_rangevit cfg k with
  | error e => simp [Except.map]
  | ok m => simp [Except.map, create_rangevit_ok_hasKP h]

theorem vt_init_ok_fields {a : VTArgs} {vt : VisionTransformer}
    (h : VisionTransformer.init a = Except.ok vt) :
    vt.pos_embed_len = vt.patch_embed.num_patches + 1 ∧
    vt.patch_embed.img_size = vt.image_size ∧ vt.d_ff = a.d_ff := by
  unfold VisionTransformer.init at h
  split at h
  case isFalse => exact Except.noConfusion h
  case isTrue =>
    split at h
    case h_2 => exact Except.noConfusion h
    case h_1 =>
      injection h with h
      subst h
      exact ⟨rfl, rfl, rfl⟩

/-- Claim C5: for an input whose spatial size is the configured
`image_size`, the token count after prepending the class token (line 105)
is `num_patches + 1`, which is exactly the second dimension of the
positional embedding created at lines 76-77 — so the addition
`x + pos_embed` at line 108 is shape-consistent and its mismatch failure
cannot trigger. -/
theorem tokens_match_pos_embed (a : VTArgs) (vt : VisionTransformer)
    (h : VisionTransformer.init a = Except.ok vt) (H W : Nat)
    (hHW : (H, W) = vt.image_size) :
    VisionTransformer.forward_tokens vt H W = vt.pos_embed_len := by
  obtain ⟨h1, h2, _⟩ := vt_init_ok_fields h
  rw [h1]
  have himg : vt.patch_embed.img_size = (H, W) := h2.trans hHW.symm
  unfold VisionTransformer.forward_tokens ConvStem.num_patches ConvStem.out_num_tokens
  rw [himg]

theorem tokens_match_pos_embed_witness :
    VisionTransformer.forward_tokens exVT 32 384 = exVT.pos_embed_len :=
  tokens_match_pos_embed exVTArgs exVT rfl 32 384 rfl

theorem pop_ok {α : Type} {d : PyDict α} {k : String} {r : α × PyDict α}
    (h : PyDict.pop d k = Except.ok r) :
    List.lookup k d = Option.some r.1 ∧ r.2 = PyDict.erase d k := by
  unfold PyDict.pop at h
  split at h
  · injection h with h
    subst h
    exact ⟨by assumption, rfl⟩
  · exact Except.noConfusion h

theorem getItem_ok {α : Type} {d : PyDict α} {k : String} {v : α}
    (h : PyDict.getItem d k = Except.ok v) : List.lookup k d = Option.some v := by
  unfold PyDict.getItem at h
  split at h
  · injection h with h
    subst h
    assumption
  · exact Except.noConfusion h

theorem kwReq_ok {d : Cfg} {k : String} {v : Val}
    (h : kwReq d k = Except.ok v) : List.lookup k d = Option.some v := by
  unfold kwReq at h
  split at h
  · injection h with h
    subst h
    assumption
  · exact Except.noConfusion h

theorem asNat_ok {v : Val} {n : Nat} (h : Val.asNat v = Except.ok n) : v = Val.nat n := by
  cases v <;> simp [Val.asNat] at h <;> simp [h]

/-- What the dict manipulation of `create_vit` guarantees about the dict handed
to `VisionTransformer(**model_cfg)`: `d_ff` is four times the configured
`d_model`, and when `new_patch_size` is not `None` the `patch_size` and
`patch_stride` entries are written from it, the stride defaulting to the
size. -/
theorem steps_ok_lookups {cfg d : Cfg} (h : create_vit_steps cfg = Except.ok d) :
    (∃ n, List.lookup "d_model" cfg = Option.some (Val.nat n) ∧
      List.lookup "d_ff" d = Option.some (Val.nat (4 * n))) ∧
    (∀ v, List.lookup "new_patch_size" cfg = Option.some v → v ≠ Val.pynone →
      List.lookup "patch_size" d = Option.some v ∧
      (∀ w, List.lookup "new_patch_stride" cfg = Option.some w →
        List.lookup "patch_stride" d =
          Option.some (if w = Val.pynone then v else w))) := by
  unfold create_vit_steps at h
  simp only [except_bind_ok] at h
  obtain ⟨r1, h1, v1, h2, dm, h3, r2, h4, r3, h5, h6⟩ := h
  obtain ⟨hl1, he1⟩ := pop_ok h1
  have hdm : List.lookup "d_model" cfg = Option.some v1 := by
    have := getItem_ok h2
    rw [he1, lookup_erase_ne (by decide)] at this
    exact this
  have hv1 := asNat_ok h3
  subst hv1
  obtain ⟨hl2, he2⟩ := pop_ok h4
  obtain ⟨hl3, he3⟩ := pop_ok h5
  have hnps : List.lookup "new_patch_size" cfg = Option.some r2.1 := by
    rw [he1] at hl2
    rw [lookup_set_ne _ _ (by decide), lookup_erase_ne (by decide)] at hl2
    exact hl2
  have hnpstr : List.lookup "new_patch_stride" cfg = Option.some r3.1 := by
    rw [he2, he1] at hl3
    rw [lookup_erase_ne (by decide), lookup_set_ne _ _ (by decide),
      lookup_erase_ne (by decide)] at hl3
    exact hl3
  constructor
  · refine ⟨dm, hdm, ?_⟩
    split at h6 <;> injection h6 with h6 <;> subst h6
    · rw [lookup_set_ne _ _ (by decide), lookup_set_ne _ _ (by decide), he3,
        lookup_erase_ne (by decide), he2, lookup_erase_ne (by decide),
        lookup_set_self]
    · rw [he3, lookup_erase_ne (by decide), he2, lookup_erase_ne (by decide),
        lookup_set_self]
  · intro v hv hvne
    have hr21 : r2.1 = v := by
      rw [hnps] at hv
      exact (Option.some.inj hv)
    subst hr21
    split at h6
    case isFalse hcond => exact absurd hvne (by simpa using hcond)
    case isTrue hcond =>
      injection h6 with h6
      subst h6
      constructor
      · rw [lookup_set_ne _ _ (by decide), lookup_set_self]
      · intro w hw
        have hr31 : r3.1 = w := by
          rw [hnpstr] at hw
          exact (Option.some.inj hw)
        subst hr31
        rw [lookup_set_self]

/-- What the `**model_cfg` binding guarantees about the constructed
`VTArgs`: `d_ff` and `patch_size` come from the dict entries of those
names, and `patch_stride` from its entry with default `None`. -/
theorem kwargsToArgs_ok_fields {d : Cfg} {a : VTArgs}
    (h : VisionTransformer.kwargsToArgs d = Except.ok a) :
    List.lookup "d_ff" d = Option.some (Val.nat a.d_ff) ∧
    List.lookup "patch_size" d = Option.some a.patch_size ∧
    kwOpt d "patch_stride" Val.pynone = a.patch_stride := by
  unfold VisionTransformer.kwargsToArgs at h
  split at h
  case isFalse => exact Except.noConfusion h
  case isTrue =>
    simp only [except_bind_ok] at h
    obtain ⟨v1, hv1, isz, hisz, ps, hps, v2, hv2, nl, hnl, v3, hv3, dmm, hdm,
      v4, hv4, dff, hdff, v5, hv5, nh, hnh, v6, hv6, nc, hnc, dro, hdro,
      dpr, hdpr, ch, hch, lsi, hlsi, cst, hcst, sbc, hsbc, shd, hshd, hfin⟩ := h
    injection hfin with hfin
    subst hfin
    refine ⟨?_, kwReq_ok hps, rfl⟩
    rw [kwReq_ok hv4, asNat_ok hdff]

/-- Claim C8: whatever configuration dictionary `create_vit` receives,
a successfully constructed encoder has `d_ff` equal to four times the
configured `d_model` — line 122 overwrites any `d_ff` the caller put in
the dict. -/
theorem create_vit_dff_is_4x_dmodel (cfg : Cfg) (vt : VisionTransformer)
    (h : create_vit cfg = Except.ok vt) :
    ∃ n, List.lookup "d_model" cfg = Option.some (Val.nat n) ∧ vt.d_ff = 4 * n := by
  unfold create_vit at h
  rw [except_bind_ok] at h
  obtain ⟨d, hsteps, hfk⟩ := h
  unfold VisionTransformer.fromKwargs at hfk
  rw [except_bind_ok] at hfk
  obtain ⟨a, hkta, hinit⟩ := hfk
  obtain ⟨⟨n, hdm, hdff⟩, -⟩ := steps_ok_lookups hsteps
  obtain ⟨hdff2, -, -⟩ := kwargsToArgs_ok_fields hkta
  rw [hdff] at hdff2
  have h4 : a.d_ff = 4 * n := (Val.nat.inj (Option.some.inj hdff2)).symm
  obtain ⟨-, -, hdfe⟩ := vt_init_ok_fields hinit
  exact ⟨n, hdm, by rw [hdfe, h4]⟩

theorem create_vit_dff_is_4x_dmodel_witness :
    ∃ n, List.lookup "d_model" exCfg = Option.some (Val.nat n) ∧ exVT.d_ff = 4 * n :=
  create_vit_dff_is_4x_dmodel exCfg exVT rfl

theorem bindNA {α β : Type} {x : Except PyError α} {f : α → Except PyError β}
    (hx : ∀ e, x = Except.error e → e ≠ PyError.assertionError)
    (hf : ∀ b e, f b = Except.error e → e ≠ PyError.assertionError) :
    ∀ e, x >>= f = Except.error e → e ≠ PyError.assertionError := by
  intro e h
  rw [except_bind_error] at h
  rcases h with h | ⟨b, _, h⟩
  exacts [hx e h, hf b e h]

theorem ok_na {α : Type} (x : α) :
    ∀ e, (Except.ok x : Except PyError α) = Except.error e →
      e ≠ PyError.assertionError :=
  fun _ h => Except.noConfusion h

theorem kwReq_na (d : Cfg) (k : String) :
    ∀ e, kwReq d k = Except.error e → e ≠ PyError.assertionError := by
  intro e h hc
  subst hc
  unfold kwReq at h
  split at h
  · exact Except.noConfusion h
  · simp at h

theorem pop_na {α : Type} (d : PyDict α) (k : String) :
    ∀ e, PyDict.pop d k = Except.error e → e ≠ PyError.assertionError := by
  intro e h hc
  subst hc
  unfold PyDict.pop at h
  split at h
  · exact Except.noConfusion h
  · simp at h

theorem getItem_na {α : Type} (d : PyDict α) (k : String) :
    ∀ e, PyDict.getItem d k = Except.error e → e ≠ PyError.assertionError := by
  intro e h hc
  subst hc
  unfold PyDict.getItem at h
  split at h
  · exact Except.noConfusion h
  · simp at h

theorem asNat_na (v : Val) :
    ∀ e, Val.asNat v = Except.error e → e ≠ PyError.assertionError := by
  intro e h hc
  subst hc
  cases v <;> simp [Val.asNat] at h

theorem asRat_na (v : Val) :
    ∀ e, Val.asRat v = Except.error e → e ≠ PyError.assertionError := by
  intro e h hc
  subst hc
  cases v <;> simp [Val.asRat] at h

theorem asPairE_na (v : Val) :
    ∀ e, Val.asPairE v = Except.error e → e ≠ PyError.assertionError := by
  intro e h hc
  subst hc
  cases v <;> simp [Val.asPairE] at h

theorem asStr_na (v : Val) :
    ∀ e, Val.asStr v = Except.error e → e ≠ PyError.assertionError := by
  intro e h hc
  subst hc
  cases v <;> simp [Val.asStr] at h

theorem asOptNat_na (v : Val) :
    ∀ e, Val.asOptNat v = Except.error e → e ≠ PyError.assertionError := by
  intro e h hc
  subst hc
  cases v <;> simp [Val.asOptNat] at h

theorem asOptRat_na (v : Val) :
    ∀ e, Val.asOptRat v = Except.error e → e ≠ PyError.assertionError := by
  intro e h hc
  subst hc
  cases v <;> simp [Val.asOptRat] at h

/-- The dict manipulation of `create_vit` can raise `KeyError` or `TypeError`
but never the line 53 `AssertionError`. -/
theorem create_vit_steps_na (cfg : Cfg) :
    ∀ e, create_vit_steps cfg = Except.error e → e ≠ PyError.assertionError := by
  unfold create_vit_steps
  refine bindNA (pop_na _ _) fun r1 => ?_
  refine bindNA (getItem_na _ _) fun v => ?_
  refine bindNA (asNat_na _) fun dm => ?_
  refine bindNA (pop_na _ _) fun r2 => ?_
  refine bindNA (pop_na _ _) fun r3 => ?_
  intro e h hc
  subst hc
  split at h <;> exact Except.noConfusion h

/-- The `**model_cfg` binding can raise only `TypeError`, never the
line 53 `AssertionError`. -/
theorem kwargsToArgs_na (d : Cfg) :
    ∀ e, VisionTransformer.kwargsToArgs d = Except.error e →
      e ≠ PyError.assertionError := by
  intro e h hc
  subst hc
  unfold VisionTransformer.kwargsToArgs at h
  split at h
  · exact (bindNA (kwReq_na _ _) fun x1 =>
      bindNA (asPairE_na _) fun _ =>
      bindNA (kwReq_na _ _) fun _ =>
      bindNA (kwReq_na _ _) fun x2 =>
      bindNA (asNat_na _) fun _ =>
      bindNA (kwReq_na _ _) fun x3 =>
      bindNA (asNat_na _) fun _ =>
      bindNA (kwReq_na _ _) fun x4 =>
      bindNA (asNat_na _) fun _ =>
      bindNA (kwReq_na _ _) fun x5 =>
      bindNA (asNat_na _) fun _ =>
      bindNA (kwReq_na _ _) fun x6 =>
      bindNA (asNat_na _) fun _ =>
      bindNA (asRat_na _) fun _ =>
      bindNA (asRat_na _) fun _ =>
      bindNA (asNat_na _) fun _ =>
      bindNA (asOptRat_na _) fun _ =>
      bindNA (asStr_na _) fun _ =>
      bindNA (asNat_na _) fun _ =>
      bindNA (asOptNat_na _) fun _ =>
      ok_na _) PyError.assertionError h rfl
  · simp at h

/-- Claim C10: when `new_patch_size` is set and `new_patch_stride` is
`None`, line 129 defaults the stride to the size, so the line 53
`assert patch_stride == patch_size` cannot fail; conversely an explicit
`new_patch_stride` different from `new_patch_size` (here `(4, 4)` vs
`(2, 8)`) fails exactly that assertion. -/
theorem stride_default_makes_assert_unreachable :
    (∀ (cfg : Cfg) (v : Val), List.lookup "new_patch_size" cfg = Option.some v →
      v ≠ Val.pynone →
      List.lookup "new_patch_stride" cfg = Option.some Val.pynone →
      create_vit cfg ≠ Except.error PyError.assertionError) ∧
    create_vit c10BadCfg = Except.error PyError.assertionError := by
  refine ⟨?_, rfl⟩
  intro cfg v hv hvne hw h
  unfold create_vit at h
  rw [except_bind_error] at h
  rcases h with h | ⟨d, hsteps, h⟩
  · exact create_vit_steps_na cfg _ h rfl
  · unfold VisionTransformer.fromKwargs at h
    rw [except_bind_error] at h
    rcases h with h | ⟨a, hkta, h⟩
    · exact kwargsToArgs_na d _ h rfl
    · obtain ⟨-, hcons⟩ := steps_ok_lookups hsteps
      obtain ⟨hpsd, hrest⟩ := hcons v hv hvne
      have hstrd := hrest Val.pynone hw
      simp only [if_pos rfl] at hstrd
      obtain ⟨-, hpsa, hstra⟩ := kwargsToArgs_ok_fields hkta
      rw [hpsd] at hpsa
      have hav : v = a.patch_size := Option.some.inj hpsa
      unfold kwOpt at hstra
      rw [hstrd] at hstra
      simp at hstra
      unfold VisionTransformer.init at h
      split at h
      case isTrue =>
        split at h
        · exact Except.noConfusion h
        · simp at h
      case isFalse hne =>
        apply hne
        rw [← hstra, ← hav]

theorem stride_default_makes_assert_unreachable_witness :
    create_vit exCfg ≠ Except.error PyError.assertionError :=
  stride_default_makes_assert_unreachable.1 exCfg (Val.pair 2 8) rfl (by decide) rfl

theorem heap_get_put_ne {h : Heap} {r s : Nat} (hne : r ≠ s) (d : Cfg) :
    (Heap.put h s d).get r = h.get r := by
  unfold Heap.put Heap.get
  rw [List.getD_eq_getElem?_getD, List.getD_eq_getElem?_getD,
    List.getElem?_set_ne (Ne.symm hne)]

theorem heap_get_append {l : List Cfg} {r : Nat} (hr : r < l.length) (d : Cfg) :
    Heap.get ⟨l ++ [d]⟩ r = Heap.get ⟨l⟩ r := by
  unfold Heap.get
  simp [List.getD_eq_getElem?_getD, List.getElem?_append, hr]

/-- Claim C9: under Python reference semantics, `create_vit` never mutates
the dict object of the caller: line 119 copies it into a fresh object and every
`pop` and subscript write targets the copy, so after the call — whether it
returns or raises — the dict behind the reference of the caller is exactly what
it was before. -/
theorem create_vit_copy_keeps_caller_dict (r : Nat) (h0 : Heap)
    (hr : r < h0.dicts.length) :
    ((create_vit_st r h0).2).get r = h0.get r := by
  have hne : r ≠ h0.dicts.length := Nat.ne_of_lt hr
  unfold create_vit_st
  simp only [Heap.alloc]
  repeat' split
  all_goals simp only [heap_get_put_ne hne]
  all_goals exact heap_get_append hr _

theorem create_vit_copy_keeps_caller_dict_witness :
    ((create_vit_st 0 exHeap).2).get 0 = exHeap.get 0 :=
  create_vit_copy_keeps_caller_dict 0 exHeap (by decide)
